import Mathlib

/-!
# FlightIntegration — verification of the browser client layer and launchers

A shallow embedding of the JavaScript/Vue front-end code of the
FlightIntegration repository (response normalization, class-type mapping,
price-range derivation, form validation, price slider, flight-service cache)
together with the TDX auth example from the API documentation and the nightly
launcher batch script, plus theorems settling the specification claims.

JavaScript dynamic values are modelled by the inductive type `JSVal`;
machine `Date.now()` timestamps are integers; `Math.random()` is passed in
as an explicit rational in `[0,1)`; `JSON.parse` is passed in as an explicit
partial function (`none` models a thrown-and-caught parse error).
-/

/-- A JavaScript value, as far as the embedded code inspects one:
`null`, `undefined`, booleans, numbers (the code only compares and stores
integral values), strings, arrays and plain objects (own enumerable
properties in insertion order). -/
inductive JSVal where
  | null
  | undefined
  | bool (b : Bool)
  | num (n : Int)
  | str (s : String)
  | arr (elems : List JSVal)
  | obj (fields : List (String × JSVal))

/-- JavaScript truthiness of a `JSVal`. -/
def truthy : JSVal → Bool
  | .null => false
  | .undefined => false
  | .bool b => b
  | .num n => n != 0
  | .str s => s != ""
  | .arr _ => true
  | .obj _ => true

/-- Property access `v[name]`: defined field of an object, otherwise
`undefined` (property access on primitives, arrays' named properties and
`null`-guarded code paths all read as `undefined` here). -/
def getField (v : JSVal) (name : String) : JSVal :=
  match v with
  | .obj fields =>
    match fields.lookup name with
    | some x => x
    | none => .undefined
  | _ => .undefined

/-- Model of `Array.isArray`. -/
def isArray : JSVal → Bool
  | .arr _ => true
  | _ => false

/-- The element list of an array value (`[]` on non-arrays; only applied
under an `isArray` guard in the embedded code). -/
def arrayElems : JSVal → List JSVal
  | .arr xs => xs
  | _ => []

/-- Model of `Object.values`: the values of an object's own enumerable properties. -/
def objValues : JSVal → List JSVal
  | .obj fields => fields.map (fun f => f.2)
  | _ => []

/-- Model of the test `typeof v === 'object'` (true for objects, arrays and `null`). -/
def isObjectType : JSVal → Bool
  | .obj _ => true
  | .arr _ => true
  | .null => true
  | _ => false

/-- Model of `String.prototype.toLowerCase`, character by character (the embedded
code only lowercases ASCII letters; CJK characters are unaffected in both
JavaScript and this model). -/
def jsToLower (s : String) : String :=
  String.mk (s.data.map Char.toLower)

/-- Substring containment, modelling JavaScript `String.prototype.includes`. -/
def strIncludes (s pat : String) : Bool :=
  go s.data
where
  go : List Char → Bool
  | [] => pat.data.isPrefixOf ([] : List Char)
  | c :: cs => pat.data.isPrefixOf (c :: cs) || go cs

/-! ## `_handleResponse` — browser response normalization
(`src/frontend/src/api/services/flightService.js`, lines 65–118) -/

/-- The body of `_handleResponse` after the `null`/`undefined` check and the
one-shot `JSON.parse` step: the `outbound`, `outbound_flights`, bare-array,
`data` and object-coercion branches, in source order. -/
def handleResponseParsed (r : JSVal) : List JSVal :=
  if truthy r && truthy (getField r "outbound") then
    if isArray (getField r "outbound") then arrayElems (getField r "outbound") else []
  else if truthy r && truthy (getField r "outbound_flights") then
    if isArray (getField r "outbound_flights") then arrayElems (getField r "outbound_flights") else []
  else if isArray r then arrayElems r
  else if truthy r && truthy (getField r "data") && isArray (getField r "data") then
    arrayElems (getField r "data")
  else if truthy r && isObjectType r then objValues r
  else []

/-- Model of `flightService._handleResponse`. `parse` models `JSON.parse`; a parse
failure (`none`) is the caught-exception path returning `[]`. A string input
is parsed exactly once and the result is not re-examined as a string, as in
the source. -/
def handleResponse (parse : String → Option JSVal) (response : JSVal) : List JSVal :=
  match response with
  | .null => []
  | .undefined => []
  | .str s =>
    match parse s with
    | some v => handleResponseParsed v
    | none => []
  | v => handleResponseParsed v

/-! ## Class-type mapping
(`flightService._mapClassTypeToAPI`, lines 309–318, and the flight card's
`formatClassType`, `src/frontend/src/components/FlightCard.vue`, lines
135–141) -/

/-- The `classTypeMap` literal of `_mapClassTypeToAPI`. -/
def classTypeMap : List (String × String) :=
  [("economy", "經濟"), ("business", "商務"), ("first", "頭等")]

/-- Model of `flightService._mapClassTypeToAPI`: UI label → backend label, defaulting
to `"經濟"` for a falsy (`none`/empty) or unrecognized input. -/
def mapClassTypeToAPI (classType : Option String) : String :=
  match classType with
  | none => "經濟"
  | some s =>
    if s = "" then "經濟"
    else
      match classTypeMap.lookup (jsToLower s) with
      | some v => v
      | none => "經濟"

/-- The flight card's `formatClassType` (FlightCard.vue lines 135–141):
backend or UI label → display label, by substring tests on the lowercased
input, defaulting to `"經濟艙"`. -/
def formatClassType (classType : Option String) : String :=
  match classType with
  | none => "經濟艙"
  | some s =>
    if s = "" then "經濟艙"
    else
      let l := jsToLower s
      if strIncludes l "business" || strIncludes l "商務" then "商務艙"
      else if strIncludes l "first" || strIncludes l "頭等" then "頭等艙"
      else "經濟艙"

/-! ## Price-range derivation
(`handleSearch`, `src/unnamed/part_003` lines 213–219 and
`src/frontend/src/views/FlightSearch.vue` lines 260–264) -/

/-- The price-processing step of `handleSearch`: a flight whose `price` is
`null` is coerced to `0` before the range derivation. -/
def processedPrice : Option Nat → Nat
  | some v => v
  | none => 0

/-- Model of `Math.ceil(n / 1000) * 1000` on a natural price. -/
def roundUpTo1000 (n : Nat) : Nat :=
  ((n + 999) / 1000) * 1000

/-- The derived price-filter bounds of `handleSearch`:
`maxPrice = Math.max(...prices, 0)`,
`filters.priceRange.max = Math.ceil(maxPrice / 1000) * 1000 || 50000`,
`filters.priceRange.min = 0`. Returned as `(min, max)`. -/
def derivedPriceRange (prices : List Nat) : Nat × Nat :=
  let maxPrice := prices.foldl max 0
  let c := roundUpTo1000 maxPrice
  (0, if c = 0 then 50000 else c)

/-! ## Search-form validation
(`validateForm`/`submitSearch`, `src/frontend/src/components/search/SearchForm.vue`
lines 203–225) -/

/-- The search form's state as far as validation reads it. Airports are
selected airport objects or `null`; dates are date strings modelled by their
day value, with `none` for the empty string (`new Date('')` is an invalid
date whose comparisons are all false, which the `none` cases reproduce). -/
structure SearchFormData where
  departureAirport : Option String
  arrivalAirport : Option String
  departureDate : Option Nat
  returnDate : Option Nat

/-- The reactive `errors` record written by `validateForm`. -/
structure SearchFormErrors where
  departureAirport : String
  arrivalAirport : String
  departureDate : String
  returnDate : String

/-- Model of `validateForm` (SearchForm.vue lines 203–218): writes per-field error
messages and returns the submit gate
`isValid && !errors.departureAirport && !errors.arrivalAirport && !errors.departureDate`. -/
def validateForm (fd : SearchFormData) : SearchFormErrors × Bool :=
  let eDepAirport := if fd.departureAirport.isSome then "" else "請選擇出發機場"
  let eArrAirport := if fd.arrivalAirport.isSome then "" else "請選擇目的地機場"
  let eDepDate := if fd.departureDate.isSome then "" else "請選擇出發日期"
  let retCheck :=
    match fd.returnDate with
    | none => ("", true)
    | some r =>
      match fd.departureDate with
      | some d => if r < d then ("回程日期必須在出發日期之後", false) else ("", true)
      | none => ("", true)
  (⟨eDepAirport, eArrAirport, eDepDate, retCheck.1⟩,
    retCheck.2 && eDepAirport == "" && eArrAirport == "" && eDepDate == "")

/-- Model of `submitSearch` (SearchForm.vue lines 220–225): emits the `search` event
with a copy of the form data unless validation fails or a search/load is in
flight. `none` means the event is not emitted, so the parent issues no
network call. -/
def submitSearch (fd : SearchFormData)
    (isSearching loadingTaiwanAirports loadingDestinations : Bool) :
    Option SearchFormData :=
  if !(validateForm fd).2 || isSearching || loadingTaiwanAirports || loadingDestinations then
    none
  else
    some fd

/-! ## Price-range slider
(`updateMinPrice`/`updateMaxPrice`,
`src/frontend/src/components/PriceRangeSlider.vue` lines 63–93 and
`src/unnamed/part_008` lines 145–171) -/

/-- The `{min, max}` object held in the slider's `modelValue` and emitted by
its update handlers. -/
structure PriceRange where
  min : Int
  max : Int

/-- Model of `updateMinPrice`: emits `{min: newMin, max}` when `newMin <= max`,
otherwise clamps to `{min: max, max}`. -/
def updateMinPrice (cur : PriceRange) (newMin : Int) : PriceRange :=
  if newMin ≤ cur.max then ⟨newMin, cur.max⟩ else ⟨cur.max, cur.max⟩

/-- Model of `updateMaxPrice`: emits `{min, max: newMax}` when `newMax >= min`,
otherwise clamps to `{min, max: min}`. -/
def updateMaxPrice (cur : PriceRange) (newMax : Int) : PriceRange :=
  if cur.min ≤ newMax then ⟨cur.min, newMax⟩ else ⟨cur.min, cur.min⟩

/-! ## TDX token acquisition
(`TDXAuth.get_token`, `src/docs/api/README.md` lines 83–108) -/

/-- The TDX token endpoint URL of `TDXAuth.__init__`. -/
def tdxAuthUrl : String :=
  "https://tdx.transportdata.tw/auth/realms/TDXConnect/protocol/openid-connect/token"

/-- The form-encoded body of the client-credentials POST. -/
def tokenRequestData (clientId clientSecret : String) : List (String × String) :=
  [("grant_type", "client_credentials"),
   ("client_id", clientId),
   ("client_secret", clientSecret)]

/-- Python truthiness of `self.token` (`None` and the empty string are
falsy). -/
def pyTruthy : Option String → Bool
  | some s => s ≠ ""
  | none => false

/-- The HTTP response a `requests.post` to the token endpoint would yield:
status code, raw body text, and `json.loads(text).get("access_token")`
(`none` when the field is absent). -/
structure TokenResponse where
  status : Nat
  text : String
  accessToken : Option String

/-- The exception raised on a non-200 token response (the spec's
ProviderAuthError), carrying the status code and response body that
`get_token` interpolates into its message. -/
structure ProviderAuthError where
  status : Nat
  body : String

/-- State of `TDXAuth`: its mutable part: the cached token, `None` initially. -/
structure TDXAuthState where
  token : Option String

/-- Outcome of one `get_token()` call: the returned token or raised error,
the state left behind, and the POST issued (`none` when the cached token was
served without any HTTP request). -/
structure GetTokenResult where
  result : Except ProviderAuthError (Option String)
  state : TDXAuthState
  httpRequest : Option (String × List (String × String))

/-- Model of `TDXAuth.get_token`: serve a (truthy) cached token without HTTP;
otherwise POST the client-credentials form to the token endpoint, raise on
non-200 leaving the cache unchanged, and on 200 parse, cache and return
`access_token`. -/
def get_token (clientId clientSecret : String) (st : TDXAuthState)
    (resp : TokenResponse) : GetTokenResult :=
  if pyTruthy st.token then
    ⟨.ok st.token, st, none⟩
  else if resp.status ≠ 200 then
    ⟨.error ⟨resp.status, resp.text⟩, st,
      some (tdxAuthUrl, tokenRequestData clientId clientSecret)⟩
  else
    ⟨.ok resp.accessToken, ⟨resp.accessToken⟩,
      some (tdxAuthUrl, tokenRequestData clientId clientSecret)⟩

/-! ## Nightly launcher timeout
(batch script, `src/unnamed/part_001` lines 30–44) -/

/-- One command of the launcher's post-02:00 tail. -/
inductive LauncherCmd where
  | startSync
  | waitSec (n : Nat)
  | killPython

/-- Launcher-trace state: seconds elapsed since the 02:00 trigger and
whether the sync process is still running. -/
structure LauncherState where
  elapsed : Nat
  syncRunning : Bool

/-- One step of the launcher. `syncDuration` is how long the sync process
would run if left alone (`none`: it never exits on its own); a `timeout`
wait lets it finish on its own when its duration falls inside the elapsed
window, and `taskkill /f /im python.exe` stops it unconditionally. -/
def launcherStep (syncDuration : Option Nat) (s : LauncherState) :
    LauncherCmd → LauncherState
  | .startSync => { s with syncRunning := true }
  | .waitSec n =>
    let e := s.elapsed + n
    ⟨e, s.syncRunning &&
        (match syncDuration with
         | some d => decide (e < d)
         | none => true)⟩
  | .killPython => { s with syncRunning := false }

/-- The command tail of the nightly batch script after the 02:00 trigger:
`start /B python sync_flight_data.py …`, `timeout /t 600`,
`taskkill /f /im python.exe`, `timeout /t 5`, exit. -/
def nightlyScript : List LauncherCmd :=
  [.startSync, .waitSec 600, .killPython, .waitSec 5]

/-- Run the launcher tail from the trigger instant. -/
def runNightlyLauncher (syncDuration : Option Nat) : LauncherState :=
  nightlyScript.foldl (launcherStep syncDuration) ⟨0, false⟩

/-! ## Flight-service cache
(`cache`/`checkCache`, flightService.js lines 4–53; the read operations,
lines 125–302; `clearCache`, lines 321–333) -/

/-- Write `v[name] = x` on a JavaScript value: updates or appends the field
of an object; the code only performs keyed writes on object slots, so other
slots are returned unchanged. -/
def setField (v : JSVal) (name : String) (x : JSVal) : JSVal :=
  match v with
  | .obj fields => .obj (setEntry fields)
  | other => other
where
  setEntry : List (String × JSVal) → List (String × JSVal)
  | [] => [(name, x)]
  | (k, w) :: rest => if k = name then (name, x) :: rest else (k, w) :: setEntry rest

/-- One slot of the `cache` literal: `data`, `timestamp` (both dynamically
typed: key→value objects, or `null` after `clearCache`, or — for the
airlines slot after a store — a raw array / raw number) and a `ttl` in
milliseconds. -/
structure CacheBucket where
  data : JSVal
  timestamp : JSVal
  ttl : Int

/-- The whole module-level `cache` object. -/
structure ServiceCache where
  airports : CacheBucket
  destinations : CacheBucket
  airlines : CacheBucket
  flights : CacheBucket

/-- The `cache` literal of flightService.js lines 4–25. -/
def initialCache : ServiceCache :=
  { airports := ⟨.obj [], .obj [], 60 * 60 * 1000⟩,
    destinations := ⟨.obj [], .obj [], 30 * 60 * 1000⟩,
    airlines := ⟨.obj [], .obj [], 60 * 60 * 1000⟩,
    flights := ⟨.obj [], .obj [], 5 * 60 * 1000⟩ }

/-- Model of the freshness comparison applied to a dynamically typed timestamp value, namely `(now - t) < ttl`: false unless
the value is a number (a non-numeric operand makes the JavaScript
comparison a false NaN comparison). -/
def tsFresh (now ttl : Int) : JSVal → Bool
  | .num t => decide (now - t < ttl)
  | _ => false

/-- Model of `checkCache(cacheType, cacheKey)` (flightService.js lines 28–53) for one
bucket: reinitializes falsy `data`/`timestamp` slots to `{}` (a mutation
that persists, hence the returned bucket), then answers whether the key is
cached and fresh. The `default` branch is taken exactly when the key is the
string `'default'`. -/
def checkCache (b : CacheBucket) (cacheKey : String) (now : Int) :
    Bool × CacheBucket :=
  let d := if truthy b.data then b.data else .obj []
  let ts := if truthy b.timestamp then b.timestamp else .obj []
  let b' : CacheBucket := ⟨d, ts, b.ttl⟩
  if cacheKey = "default" then
    (truthy (getField ts "default") && tsFresh now b.ttl (getField ts "default"), b')
  else
    (truthy (getField d cacheKey) && truthy (getField ts cacheKey) &&
      tsFresh now b.ttl (getField ts cacheKey), b')

/-- Outcome of one service read operation: the value returned, the cache
left behind, and whether `api.get` was reached. -/
structure OpResult where
  result : JSVal
  cache : ServiceCache
  networkIssued : Bool

/-- Model of `flightService.getTaiwanAirports(date)` (lines 125–160): cache key
`airports_${date}`; a hit returns `cache.airports.data[cacheKey]` without
any request; a miss normalizes the `api.get` response (always an array, so
the validity check never throws), stores it with the current timestamp and
returns it. -/
def getTaiwanAirports (parse : String → Option JSVal) (st : ServiceCache)
    (now : Int) (date : String) (response : JSVal) : OpResult :=
  let cacheKey := "airports_" ++ date
  let hb := checkCache st.airports cacheKey now
  let st := { st with airports := hb.2 }
  if hb.1 then
    ⟨getField st.airports.data cacheKey, st, false⟩
  else
    let data := handleResponse parse response
    let b' : CacheBucket :=
      ⟨setField st.airports.data cacheKey (.arr data),
       setField st.airports.timestamp cacheKey (.num now),
       st.airports.ttl⟩
    ⟨.arr data, { st with airports := b' }, true⟩

/-- Model of `flightService.getDestinations(departureCode, date)` (lines 168–200):
cache key `date ? departureCode + '_' + date : departureCode` on the
destinations bucket. -/
def getDestinations (parse : String → Option JSVal) (st : ServiceCache)
    (now : Int) (departureCode : String) (date : Option String)
    (response : JSVal) : OpResult :=
  let cacheKey := match date with
    | some d => departureCode ++ "_" ++ d
    | none => departureCode
  let hb := checkCache st.destinations cacheKey now
  let st := { st with destinations := hb.2 }
  if hb.1 then
    ⟨getField st.destinations.data cacheKey, st, false⟩
  else
    let data := handleResponse parse response
    let b' : CacheBucket :=
      ⟨setField st.destinations.data cacheKey (.arr data),
       setField st.destinations.timestamp cacheKey (.num now),
       st.destinations.ttl⟩
    ⟨.arr data, { st with destinations := b' }, true⟩

/-- Model of `flightService.getAirlines()` (lines 206–226): consults
`checkCache('airlines')` with the `default` key, but a miss overwrites the
whole `data` slot with the result array and the whole `timestamp` slot with
the raw `Date.now()` number (not a `{default: …}` map). -/
def getAirlines (parse : String → Option JSVal) (st : ServiceCache)
    (now : Int) (response : JSVal) : OpResult :=
  let hb := checkCache st.airlines "default" now
  let st := { st with airlines := hb.2 }
  if hb.1 then
    ⟨st.airlines.data, st, false⟩
  else
    let data := handleResponse parse response
    let b' : CacheBucket := ⟨.arr data, .num now, st.airlines.ttl⟩
    ⟨.arr data, { st with airlines := b' }, true⟩

/-- Model of `flightService.searchFlights(params)` (lines 241–280): cache key
`JSON.stringify(params)`, passed in here already serialized, on the flights
bucket. -/
def searchFlights (parse : String → Option JSVal) (st : ServiceCache)
    (now : Int) (paramsKey : String) (response : JSVal) : OpResult :=
  let hb := checkCache st.flights paramsKey now
  let st := { st with flights := hb.2 }
  if hb.1 then
    ⟨getField st.flights.data paramsKey, st, false⟩
  else
    let data := handleResponse parse response
    let b' : CacheBucket :=
      ⟨setField st.flights.data paramsKey (.arr data),
       setField st.flights.timestamp paramsKey (.num now),
       st.flights.ttl⟩
    ⟨.arr data, { st with flights := b' }, true⟩

/-- Model of `flightService.getLowestPrices(params)` (lines 291–293): returns
`api.get('/ticket-prices/lowest', {params})` directly — no cache consult,
no store. -/
def getLowestPrices (st : ServiceCache) (response : JSVal) : OpResult :=
  ⟨response, st, true⟩

/-- Model of `flightService.getFlightDetails(flightId)` (lines 300–302): returns
`api.get('/flights/' + flightId)` directly — no cache consult, no store. -/
def getFlightDetails (st : ServiceCache) (response : JSVal) : OpResult :=
  ⟨response, st, true⟩

/-- Model of `flightService.clearCache()` (lines 323–333): sets every bucket's
`data` and `timestamp` to `null`. (The re-initialization to `{}` inside it
is dead: after `data = null`, the guard `data !== null` is false.) -/
def clearCache (st : ServiceCache) : ServiceCache :=
  { airports := ⟨.null, .null, st.airports.ttl⟩,
    destinations := ⟨.null, .null, st.destinations.ttl⟩,
    airlines := ⟨.null, .null, st.airlines.ttl⟩,
    flights := ⟨.null, .null, st.flights.ttl⟩ }

/-! ## Flight card seat display
(`availableSeats`, `src/frontend/src/components/FlightCard.vue` lines
341–361) -/

/-- Strict equality with the number `0` (`=== 0`). -/
def isNumZero : JSVal → Bool
  | .num 0 => true
  | _ => false

/-- The flight card's `availableSeats` computed property. `rand` is the
`Math.random()` draw in `[0,1)` used by the fake-data branch
`Math.floor(Math.random() * (45 - 2 + 1)) + 2`. -/
def availableSeats (flight : JSVal) (rand : ℚ) : JSVal :=
  let pa := getField (getField flight "price") "available_seats"
  if truthy (getField flight "price") && truthy pa then
    if isNumZero pa then .str "客滿" else pa
  else if isNumZero (getField flight "available_seats") then
    .str "客滿"
  else if truthy (getField flight "available_seats") then
    getField flight "available_seats"
  else
    .num (⌊rand * 44⌋ + 2)

/-! ## Theorems -/

/-- C2: the UI label `business` maps to the backend label `商務` and back to
the business display label `商務艙` losslessly, and each direction defaults
to economy (`經濟` toward the backend, `經濟艙` toward the UI) for an absent
or unrecognized class type. -/
theorem classType_round_trip :
    (mapClassTypeToAPI (some "business") = "商務" ∧
      formatClassType (some (mapClassTypeToAPI (some "business"))) = "商務艙") ∧
    (mapClassTypeToAPI none = "經濟" ∧ formatClassType none = "經濟艙") ∧
    (∀ s : String, jsToLower s ∉ ["economy", "business", "first"] →
      mapClassTypeToAPI (some s) = "經濟") ∧
    (∀ s : String,
      strIncludes (jsToLower s) "business" = false →
      strIncludes (jsToLower s) "商務" = false →
      strIncludes (jsToLower s) "first" = false →
      strIncludes (jsToLower s) "頭等" = false →
      formatClassType (some s) = "經濟艙") := by
  refine ⟨⟨by rfl, by rfl⟩, ⟨rfl, rfl⟩, ?_, ?_⟩
  · intro s hs
    simp only [List.mem_cons, List.not_mem_nil, or_false, not_or] at hs
    obtain ⟨h1, h2, h3⟩ := hs
    by_cases hs0 : s = ""
    · simp [mapClassTypeToAPI, hs0]
    · have e1 : (jsToLower s == "economy") = false := by simp [h1]
      have e2 : (jsToLower s == "business") = false := by simp [h2]
      have e3 : (jsToLower s == "first") = false := by simp [h3]
      simp [mapClassTypeToAPI, classTypeMap, List.lookup, hs0, e1, e2, e3]
  · intro s h1 h2 h3 h4
    by_cases hs0 : s = ""
    · simp [formatClassType, hs0]
    · simp [formatClassType, hs0, h1, h2, h3, h4]

/-- C2 witness: instantiating the default clauses at the unrecognized label
`"premium"`. -/
theorem classType_round_trip_witness :
    mapClassTypeToAPI (some "premium") = "經濟" ∧
    formatClassType (some "premium") = "經濟艙" :=
  ⟨classType_round_trip.2.2.1 "premium" (by decide),
   classType_round_trip.2.2.2 "premium" (by rfl) (by rfl) (by rfl) (by rfl)⟩

/-- The initial accumulator is bounded by a `foldl max` over a list. -/
theorem init_le_foldl_max (l : List Nat) (a : Nat) : a ≤ l.foldl max a := by
  induction l generalizing a with
  | nil => exact le_refl a
  | cons y ys ih => exact le_trans (le_max_left a y) (ih (max a y))

/-- Every list element is bounded by a `foldl max` over the list. -/
theorem le_foldl_max (l : List Nat) (a : Nat) : ∀ x ∈ l, x ≤ l.foldl max a := by
  induction l generalizing a with
  | nil => intro x hx; cases hx
  | cons y ys ih =>
    intro x hx
    rcases List.mem_cons.mp hx with rfl | hmem
    · exact le_trans (le_max_right a x) (init_le_foldl_max ys (max a x))
    · exact ih (max a y) x hmem

/-- C3: the derived price-filter floor is always 0; the ceiling is the
maximum observed price rounded up to the nearest 1000 whenever some
positive price exists (in particular `[8000, 12500, 31000] ↦ 31000`), with
the round-up characterized by `m ≤ ceil < m + 1000` and `1000 ∣ ceil`; and
it falls back to 50000 on an empty result set or when no positive price
exists. -/
theorem derivedPriceRange_spec :
    derivedPriceRange [8000, 12500, 31000] = (0, 31000) ∧
    (∀ prices : List Nat, (derivedPriceRange prices).1 = 0) ∧
    derivedPriceRange [] = (0, 50000) ∧
    (∀ prices : List Nat, (∀ p ∈ prices, p = 0) →
      (derivedPriceRange prices).2 = 50000) ∧
    (∀ rawPrices : List (Option Nat), (∀ o ∈ rawPrices, o = none) →
      (derivedPriceRange (rawPrices.map processedPrice)).2 = 50000) ∧
    (∀ prices : List Nat, ∀ p ∈ prices, 0 < p →
      (derivedPriceRange prices).2 = roundUpTo1000 (prices.foldl max 0)) ∧
    (∀ n : Nat, n ≤ roundUpTo1000 n ∧ roundUpTo1000 n < n + 1000 ∧
      1000 ∣ roundUpTo1000 n) := by
  have hzero : ∀ prices : List Nat, (∀ p ∈ prices, p = 0) →
      (derivedPriceRange prices).2 = 50000 := by
    intro prices hall
    have hmax : prices.foldl max 0 = 0 := by
      induction prices with
      | nil => rfl
      | cons q qs ih =>
        have hq : q = 0 := hall q (List.mem_cons_self q qs)
        subst hq
        simpa using ih fun p hp => hall p (List.mem_cons_of_mem _ hp)
    simp [derivedPriceRange, hmax, roundUpTo1000]
  refine ⟨by rfl, fun prices => rfl, by rfl, hzero, ?_, ?_, ?_⟩
  · intro rawPrices hall
    refine hzero _ ?_
    intro p hp
    rcases List.mem_map.mp hp with ⟨o, ho, rfl⟩
    rw [hall o ho]
    rfl
  · intro prices p hp hppos
    have hle : p ≤ prices.foldl max 0 := le_foldl_max prices 0 p hp
    have hpos : 0 < prices.foldl max 0 := lt_of_lt_of_le hppos hle
    have hne : roundUpTo1000 (prices.foldl max 0) ≠ 0 := by
      unfold roundUpTo1000
      have : 1 ≤ (prices.foldl max 0 + 999) / 1000 := by
        apply Nat.le_div_iff_mul_le (by norm_num) |>.mpr
        omega
      positivity
    simp [derivedPriceRange, hne]
  · intro n
    unfold roundUpTo1000
    have h2 : (n + 999) % 1000 < 1000 := Nat.mod_lt _ (by norm_num)
    have h3 : (n + 999) / 1000 * 1000 + (n + 999) % 1000 = n + 999 :=
      Nat.div_add_mod' (n + 999) 1000
    exact ⟨by omega, by omega, dvd_mul_left 1000 ((n + 999) / 1000)⟩

/-- C3 witness: the positive-price and all-zero clauses at concrete result
sets. -/
theorem derivedPriceRange_spec_witness :
    (derivedPriceRange [8000, 12500, 31000]).2 =
      roundUpTo1000 ([8000, 12500, 31000].foldl max 0) ∧
    (derivedPriceRange [0, 0]).2 = 50000 :=
  ⟨derivedPriceRange_spec.2.2.2.2.2.1 [8000, 12500, 31000] 31000 (by decide)
      (by decide),
   derivedPriceRange_spec.2.2.2.1 [0, 0] (by decide)⟩

/-- C5: moving one slider thumb past the other clamps the emitted value to
the other thumb, and every range emitted by `updateMinPrice` or
`updateMaxPrice` from a well-ordered range keeps `min ≤ max`. -/
theorem priceSlider_clamp :
    (∀ (cur : PriceRange) (newMin : Int), cur.min ≤ cur.max → cur.max < newMin →
      updateMinPrice cur newMin = ⟨cur.max, cur.max⟩) ∧
    (∀ (cur : PriceRange) (newMax : Int), cur.min ≤ cur.max → newMax < cur.min →
      updateMaxPrice cur newMax = ⟨cur.min, cur.min⟩) ∧
    (∀ (cur : PriceRange) (v : Int), cur.min ≤ cur.max →
      (updateMinPrice cur v).min ≤ (updateMinPrice cur v).max) ∧
    (∀ (cur : PriceRange) (v : Int), cur.min ≤ cur.max →
      (updateMaxPrice cur v).min ≤ (updateMaxPrice cur v).max) := by
  refine ⟨?_, ?_, ?_, ?_⟩
  · intro cur newMin h1 h2
    unfold updateMinPrice
    rw [if_neg (by omega)]
  · intro cur newMax h1 h2
    unfold updateMaxPrice
    rw [if_neg (by omega)]
  · intro cur v h1
    unfold updateMinPrice
    by_cases h : v ≤ cur.max
    · rw [if_pos h]; exact h
    · rw [if_neg h]
  · intro cur v h1
    unfold updateMaxPrice
    by_cases h : cur.min ≤ v
    · rw [if_pos h]; exact h
    · rw [if_neg h]

/-- C5 witness: the min thumb dragged above the max from `{min 0, max 10}`
clamps to `{10, 10}`, and the emitted range keeps `min ≤ max`. -/
theorem priceSlider_clamp_witness :
    updateMinPrice ⟨0, 10⟩ 25 = ⟨10, 10⟩ ∧
    (updateMinPrice ⟨0, 10⟩ 25).min ≤ (updateMinPrice ⟨0, 10⟩ 25).max :=
  ⟨priceSlider_clamp.1 ⟨0, 10⟩ 25 (by norm_num) (by norm_num),
   priceSlider_clamp.2.2.1 ⟨0, 10⟩ 25 (by norm_num)⟩

/-- C1 counterexample: `_handleResponse` on the unrelated object
`{foo: 1}` returns `Object.values` of it, `[1]`, not the empty array the
claim requires. -/
theorem handleResponse_unrelated_object_counterexample :
    handleResponse (fun _ => none) (.obj [("foo", .num 1)]) = [.num 1] ∧
    handleResponse (fun _ => none) (.obj [("foo", .num 1)]) ≠ ([] : List JSVal) :=
  ⟨rfl, fun h => List.noConfusion
    ((rfl : handleResponse (fun _ => none) (.obj [("foo", .num 1)]) =
        [.num 1]).symm.trans h)⟩

/-- C1 (amended): `_handleResponse` returns a bare array unchanged; the
`outbound` array of an object carrying one; otherwise the
`outbound_flights` array; otherwise the `data` array; a parseable string
behaves as its parse result; an unrelated object yields the array of its
own property values (empty only when it has none); and `null`, `undefined`
and unparseable strings yield the empty array (the function never throws,
being modelled total). -/
theorem handleResponse_normalization :
    (∀ (parse : String → Option JSVal) (xs : List JSVal),
      handleResponse parse (.arr xs) = xs) ∧
    (∀ (parse : String → Option JSVal) (fields : List (String × JSVal)) (xs : List JSVal),
      getField (.obj fields) "outbound" = .arr xs →
      handleResponse parse (.obj fields) = xs) ∧
    (∀ (parse : String → Option JSVal) (fields : List (String × JSVal)) (xs : List JSVal),
      truthy (getField (.obj fields) "outbound") = false →
      getField (.obj fields) "outbound_flights" = .arr xs →
      handleResponse parse (.obj fields) = xs) ∧
    (∀ (parse : String → Option JSVal) (fields : List (String × JSVal)) (xs : List JSVal),
      truthy (getField (.obj fields) "outbound") = false →
      truthy (getField (.obj fields) "outbound_flights") = false →
      getField (.obj fields) "data" = .arr xs →
      handleResponse parse (.obj fields) = xs) ∧
    (∀ (parse : String → Option JSVal) (s : String) (v : JSVal),
      parse s = some v →
      handleResponse parse (.str s) = handleResponseParsed v) ∧
    (∀ (parse : String → Option JSVal) (s : String),
      parse s = none → handleResponse parse (.str s) = []) ∧
    (∀ (parse : String → Option JSVal) (fields : List (String × JSVal)),
      truthy (getField (.obj fields) "outbound") = false →
      truthy (getField (.obj fields) "outbound_flights") = false →
      (truthy (getField (.obj fields) "data") &&
        isArray (getField (.obj fields) "data")) = false →
      handleResponse parse (.obj fields) = fields.map (fun f => f.2)) ∧
    (∀ parse : String → Option JSVal,
      handleResponse parse .null = [] ∧ handleResponse parse .undefined = []) := by
  have tObj : ∀ fs : List (String × JSVal), truthy (.obj fs) = true := fun _ => rfl
  have tArr : ∀ ys : List JSVal, truthy (.arr ys) = true := fun _ => rfl
  have tUndef : truthy .undefined = false := rfl
  refine ⟨?_, ?_, ?_, ?_, ?_, ?_, ?_, ?_⟩
  · intro parse xs
    simp [handleResponse, handleResponseParsed, getField, tArr, tUndef, isArray,
      arrayElems]
  · intro parse fields xs h
    simp [handleResponse, handleResponseParsed, h, tObj, tArr, isArray, arrayElems]
  · intro parse fields xs h1 h2
    simp [handleResponse, handleResponseParsed, h1, h2, tObj, tArr, isArray,
      arrayElems]
  · intro parse fields xs h1 h2 h3
    simp [handleResponse, handleResponseParsed, h1, h2, h3, tObj, tArr, isArray,
      arrayElems]
  · intro parse s v h
    simp [handleResponse, h]
  · intro parse s h
    simp [handleResponse, h]
  · intro parse fields h1 h2 h3
    have h3' : ¬(truthy (getField (.obj fields) "data") = true ∧
        isArray (getField (.obj fields) "data") = true) := by
      rw [← Bool.and_eq_true, h3]
      exact Bool.false_ne_true
    simp [handleResponse, handleResponseParsed, h1, h2, tObj, isArray,
      isObjectType, objValues]
    intro ha hb
    exact absurd ⟨ha, hb⟩ h3'
  · intro parse
    exact ⟨rfl, rfl⟩

/-- C1 witness: the `outbound` clause applied to
`{outbound: [7]}`. -/
theorem handleResponse_normalization_witness :
    handleResponse (fun _ => none) (.obj [("outbound", .arr [.num 7])]) =
      [.num 7] :=
  handleResponse_normalization.2.1 (fun _ => none)
    [("outbound", .arr [.num 7])] [.num 7] (by rfl)

/-- C4: a supplied return date earlier than the chosen departure date blocks
submission (no `search` event is emitted, hence no network call) and
populates the return-date error; a missing departure airport, destination
airport, or departure date likewise blocks submission with the
corresponding per-field error. -/
theorem searchForm_validation_gate :
    (∀ (fd : SearchFormData) (r d : Nat), fd.returnDate = some r →
      fd.departureDate = some d → r < d →
      (validateForm fd).1.returnDate = "回程日期必須在出發日期之後" ∧
      (validateForm fd).2 = false ∧
      ∀ s lt ld, submitSearch fd s lt ld = none) ∧
    (∀ fd : SearchFormData, fd.departureAirport = none →
      (validateForm fd).1.departureAirport = "請選擇出發機場" ∧
      (validateForm fd).2 = false ∧
      ∀ s lt ld, submitSearch fd s lt ld = none) ∧
    (∀ fd : SearchFormData, fd.arrivalAirport = none →
      (validateForm fd).1.arrivalAirport = "請選擇目的地機場" ∧
      (validateForm fd).2 = false ∧
      ∀ s lt ld, submitSearch fd s lt ld = none) ∧
    (∀ fd : SearchFormData, fd.departureDate = none →
      (validateForm fd).1.departureDate = "請選擇出發日期" ∧
      (validateForm fd).2 = false ∧
      ∀ s lt ld, submitSearch fd s lt ld = none) := by
  refine ⟨?_, ?_, ?_, ?_⟩
  · intro fd r d hr hd hlt
    have hv : (validateForm fd).1.returnDate = "回程日期必須在出發日期之後" ∧
        (validateForm fd).2 = false := by
      unfold validateForm
      rw [hr, hd]
      simp [hlt]
    exact ⟨hv.1, hv.2, fun s lt ld => by unfold submitSearch; rw [hv.2]; rfl⟩
  · intro fd h
    have hv : (validateForm fd).1.departureAirport = "請選擇出發機場" ∧
        (validateForm fd).2 = false := by
      unfold validateForm
      rw [h]
      simp
    exact ⟨hv.1, hv.2, fun s lt ld => by unfold submitSearch; rw [hv.2]; rfl⟩
  · intro fd h
    have hv : (validateForm fd).1.arrivalAirport = "請選擇目的地機場" ∧
        (validateForm fd).2 = false := by
      unfold validateForm
      rw [h]
      simp
    exact ⟨hv.1, hv.2, fun s lt ld => by unfold submitSearch; rw [hv.2]; rfl⟩
  · intro fd h
    have hv : (validateForm fd).1.departureDate = "請選擇出發日期" ∧
        (validateForm fd).2 = false := by
      unfold validateForm
      rw [h]
      simp
    exact ⟨hv.1, hv.2, fun s lt ld => by unfold submitSearch; rw [hv.2]; rfl⟩

/-- C4 witness: a form whose return date (day 10) precedes its departure
date (day 20) populates the return-date error and emits no search event. -/
theorem searchForm_validation_gate_witness :
    (validateForm ⟨some "TPE", some "NRT", some 20, some 10⟩).1.returnDate =
      "回程日期必須在出發日期之後" ∧
    submitSearch ⟨some "TPE", some "NRT", some 20, some 10⟩ false false false =
      none := by
  have h := searchForm_validation_gate.1 ⟨some "TPE", some "NRT", some 20, some 10⟩
    10 20 rfl rfl (by norm_num)
  exact ⟨h.1, h.2.2 false false false⟩

/-- C7: `get_token` serves a present (truthy) cached token with no HTTP
request; otherwise it POSTs the client-credentials form to the TDX token
endpoint, raises an error carrying the status code and body on every
non-200 response with the cache unchanged, and on 200 parses `access_token`
from the body, caches it, and returns it. -/
theorem get_token_spec :
    (∀ (cid cs : String) (st : TDXAuthState) (resp : TokenResponse) (tok : String),
      st.token = some tok → tok ≠ "" →
      get_token cid cs st resp = ⟨.ok (some tok), st, none⟩) ∧
    (∀ (cid cs : String) (st : TDXAuthState) (resp : TokenResponse),
      pyTruthy st.token = false → resp.status ≠ 200 →
      get_token cid cs st resp =
        ⟨.error ⟨resp.status, resp.text⟩, st,
          some (tdxAuthUrl, tokenRequestData cid cs)⟩) ∧
    (∀ (cid cs : String) (st : TDXAuthState) (resp : TokenResponse),
      pyTruthy st.token = false → resp.status = 200 →
      get_token cid cs st resp =
        ⟨.ok resp.accessToken, ⟨resp.accessToken⟩,
          some (tdxAuthUrl, tokenRequestData cid cs)⟩) := by
  refine ⟨?_, ?_, ?_⟩
  · intro cid cs st resp tok htok hne
    have ht : pyTruthy st.token = true := by rw [htok]; simpa [pyTruthy] using hne
    unfold get_token
    rw [ht, if_pos rfl, htok]
  · intro cid cs st resp hf hs
    unfold get_token
    rw [hf]
    simp [hs]
  · intro cid cs st resp hf hs
    unfold get_token
    rw [hf]
    simp [hs]

/-- C7 witness: a cached token is returned without HTTP, and a 401 response
raises an error carrying status and body. -/
theorem get_token_spec_witness :
    get_token "id" "secret" ⟨some "tok123"⟩ ⟨401, "denied", none⟩ =
      ⟨.ok (some "tok123"), ⟨some "tok123"⟩, none⟩ ∧
    get_token "id" "secret" ⟨none⟩ ⟨401, "denied", none⟩ =
      ⟨.error ⟨401, "denied"⟩, ⟨none⟩,
        some (tdxAuthUrl, tokenRequestData "id" "secret")⟩ :=
  ⟨get_token_spec.1 "id" "secret" ⟨some "tok123"⟩ ⟨401, "denied", none⟩
      "tok123" rfl (by decide),
   get_token_spec.2.1 "id" "secret" ⟨none⟩ ⟨401, "denied", none⟩ rfl
      (by decide)⟩

/-- C8: whenever the sync process started by the nightly launcher would not
exit within 600 seconds on its own, the launcher's trace kills it and
terminates: 605 seconds after the 02:00 trigger the launcher has exited
with the sync process no longer running, so its total runtime is bounded. -/
theorem nightlyLauncher_timeout (syncDuration : Option Nat)
    (h : ∀ d ∈ syncDuration, 600 < d) :
    runNightlyLauncher syncDuration = ⟨605, false⟩ ∧
    (runNightlyLauncher syncDuration).elapsed ≤ 605 := by
  cases syncDuration with
  | none => exact ⟨rfl, by rfl⟩
  | some d =>
    constructor
    · simp [runNightlyLauncher, nightlyScript, launcherStep]
    · simp [runNightlyLauncher, nightlyScript, launcherStep]

/-- C8 witness: a sync process that would run for 10000 seconds is killed
and the launcher exits at 605 seconds. -/
theorem nightlyLauncher_timeout_witness :
    runNightlyLauncher (some 10000) = ⟨605, false⟩ :=
  (nightlyLauncher_timeout (some 10000)
    (by intro d hd; simp at hd; omega)).1

/-- A defined, truthy property implies the carrier is (a truthy) object. -/
theorem truthy_of_getField (v : JSVal) (key : String)
    (h : truthy (getField v key) = true) : truthy v = true := by
  cases v <;> simp [getField, truthy] at h ⊢

/-- The check `checkCache` answers true, and leaves the bucket unchanged, whenever the
key holds a truthy value, a nonzero numeric timestamp, and the timestamp is
within the TTL of `now` (covering both the `default` and the specific-key
branch). -/
theorem checkCache_hit (b : CacheBucket) (key : String) (now : Int)
    (v : JSVal) (t : Int)
    (hd : getField b.data key = v) (htv : truthy v = true)
    (ht : getField b.timestamp key = .num t) (ht0 : t ≠ 0)
    (hfresh : now - t < b.ttl) :
    checkCache b key now = (true, b) := by
  have htd : truthy b.data = true := truthy_of_getField _ _ (by rw [hd]; exact htv)
  have hts : truthy b.timestamp = true :=
    truthy_of_getField _ _ (by rw [ht]; simp [truthy, ht0])
  unfold checkCache
  simp only [htd, hts, if_true]
  by_cases hk : key = "default"
  · subst hk
    rw [if_pos rfl, ht]
    simp only [Prod.mk.injEq]
    exact ⟨by simp [truthy, tsFresh, ht0, hfresh], trivial⟩
  · rw [if_neg hk, hd, ht]
    simp only [Prod.mk.injEq]
    refine ⟨?_, trivial⟩
    rw [htv]
    simp [truthy, tsFresh, ht0, hfresh]

/-- The check `checkCache` with the `default` key misses whenever the bucket's
`timestamp.default` property is falsy — in particular when the slot is a raw
number, as `getAirlines` leaves it. -/
theorem checkCache_default_miss (b : CacheBucket) (now : Int)
    (h : truthy (getField b.timestamp "default") = false) :
    (checkCache b "default" now).1 = false := by
  unfold checkCache
  rw [if_pos rfl]
  by_cases hts : truthy b.timestamp = true
  · simp [hts, h]
  · rw [Bool.not_eq_true] at hts
    simp only [hts]
    simp [getField, List.lookup, truthy]

/-- The check `checkCache` on a bucket whose `data` and `timestamp` slots are `null`
(the state `clearCache` leaves) misses for every key. -/
theorem checkCache_cleared (ttl : Int) (key : String) (now : Int) :
    (checkCache ⟨.null, .null, ttl⟩ key now).1 = false := by
  unfold checkCache
  by_cases hk : key = "default"
  · subst hk
    simp [truthy, getField, List.lookup]
  · rw [if_neg hk]
    simp [truthy, getField, List.lookup]

/-- Helper for C6: once the airlines bucket's `timestamp.default` property
is falsy — true of the initial cache and of every post-store state, since a
store overwrites the slot with a raw number — `getAirlines` misses its
cache, issues the network request, and again leaves a raw numeric
timestamp. -/
theorem getAirlines_always_network (parse : String → Option JSVal)
    (st : ServiceCache) (now : Int) (resp : JSVal)
    (h : truthy (getField st.airlines.timestamp "default") = false) :
    (getAirlines parse st now resp).networkIssued = true ∧
    (getAirlines parse st now resp).cache.airlines.timestamp = .num now := by
  have hm := checkCache_default_miss st.airlines now h
  constructor <;> simp [getAirlines, hm]

/-- C9: after `clearCache`, `checkCache` is false for every cache type, key
and time — in particular the next invocation of each cached read operation
of the flight service issues the network request. -/
theorem clearCache_spec :
    ∀ (st : ServiceCache) (key : String) (now : Int),
      ((checkCache (clearCache st).airports key now).1 = false ∧
       (checkCache (clearCache st).destinations key now).1 = false ∧
       (checkCache (clearCache st).airlines key now).1 = false ∧
       (checkCache (clearCache st).flights key now).1 = false) ∧
      (∀ (parse : String → Option JSVal) (date : String) (resp : JSVal),
        (getTaiwanAirports parse (clearCache st) now date resp).networkIssued = true) ∧
      (∀ (parse : String → Option JSVal) (code : String) (dateOpt : Option String)
        (resp : JSVal),
        (getDestinations parse (clearCache st) now code dateOpt resp).networkIssued = true) ∧
      (∀ (parse : String → Option JSVal) (resp : JSVal),
        (getAirlines parse (clearCache st) now resp).networkIssued = true) ∧
      (∀ (parse : String → Option JSVal) (paramsKey : String) (resp : JSVal),
        (searchFlights parse (clearCache st) now paramsKey resp).networkIssued = true) := by
  intro st key now
  refine ⟨⟨?_, ?_, ?_, ?_⟩, ?_, ?_, ?_, ?_⟩
  · exact checkCache_cleared _ key now
  · exact checkCache_cleared _ key now
  · exact checkCache_cleared _ key now
  · exact checkCache_cleared _ key now
  · intro parse date resp
    simp [getTaiwanAirports, clearCache, checkCache_cleared]
  · intro parse code dateOpt resp
    simp [getDestinations, clearCache, checkCache_cleared]
  · intro parse resp
    simp [getAirlines, clearCache, checkCache_cleared]
  · intro parse paramsKey resp
    simp [searchFlights, clearCache, checkCache_cleared]

/-- C6 counterexample: the airlines cache never produces a hit. Starting
from the initial cache, a `getAirlines` call at time 5 stores its result
and timestamp, yet a second call at time 1000 — far inside the claimed
1-hour TTL — still issues the network request. -/
theorem flightService_cache_counterexample :
    (getAirlines (fun _ => none) initialCache 5 (.arr [.str "BR"])).networkIssued
      = true ∧
    (getAirlines (fun _ => none) initialCache 5
      (.arr [.str "BR"])).cache.airlines.data = .arr [.str "BR"] ∧
    (getAirlines (fun _ => none) initialCache 5
      (.arr [.str "BR"])).cache.airlines.timestamp = .num 5 ∧
    ((1000 : Int) - 5 <
      (getAirlines (fun _ => none) initialCache 5
        (.arr [.str "BR"])).cache.airlines.ttl) ∧
    (getAirlines (fun _ => none)
      (getAirlines (fun _ => none) initialCache 5 (.arr [.str "BR"])).cache
      1000 (.arr [.str "BR"])).networkIssued = true := by
  refine ⟨rfl, rfl, rfl, by decide, rfl⟩

/-- C6 (amended): the airports, destinations and search operations are
backed by parameter-keyed caches with TTLs of 1 hour, 30 minutes and
5 minutes, and a call whose key was stored less than the TTL ago returns
the cached value without any network request; `getAirlines` consults its
cache but every store overwrites the timestamp slot with a raw number, so
whenever `timestamp.default` is unset (initially and after every store) the
call issues the network request; and `getLowestPrices` and
`getFlightDetails` are uncached, always issuing the network request. -/
theorem flightService_cache_policy :
    (initialCache.airports.ttl = 60 * 60 * 1000 ∧
     initialCache.destinations.ttl = 30 * 60 * 1000 ∧
     initialCache.airlines.ttl = 60 * 60 * 1000 ∧
     initialCache.flights.ttl = 5 * 60 * 1000) ∧
    (∀ (parse : String → Option JSVal) (st : ServiceCache) (now : Int)
      (date : String) (resp v : JSVal) (t : Int),
      getField st.airports.data ("airports_" ++ date) = v → truthy v = true →
      getField st.airports.timestamp ("airports_" ++ date) = .num t → t ≠ 0 →
      now - t < st.airports.ttl →
      (getTaiwanAirports parse st now date resp).result = v ∧
      (getTaiwanAirports parse st now date resp).networkIssued = false) ∧
    (∀ (parse : String → Option JSVal) (st : ServiceCache) (now : Int)
      (code : String) (dateOpt : Option String) (key : String) (resp v : JSVal)
      (t : Int),
      key = (match dateOpt with
        | some d => code ++ "_" ++ d
        | none => code) →
      getField st.destinations.data key = v → truthy v = true →
      getField st.destinations.timestamp key = .num t → t ≠ 0 →
      now - t < st.destinations.ttl →
      (getDestinations parse st now code dateOpt resp).result = v ∧
      (getDestinations parse st now code dateOpt resp).networkIssued = false) ∧
    (∀ (parse : String → Option JSVal) (st : ServiceCache) (now : Int)
      (paramsKey : String) (resp v : JSVal) (t : Int),
      getField st.flights.data paramsKey = v → truthy v = true →
      getField st.flights.timestamp paramsKey = .num t → t ≠ 0 →
      now - t < st.flights.ttl →
      (searchFlights parse st now paramsKey resp).result = v ∧
      (searchFlights parse st now paramsKey resp).networkIssued = false) ∧
    (∀ (parse : String → Option JSVal) (st : ServiceCache) (now : Int)
      (resp : JSVal),
      truthy (getField st.airlines.timestamp "default") = false →
      (getAirlines parse st now resp).networkIssued = true) ∧
    (∀ (parse parse2 : String → Option JSVal) (st : ServiceCache)
      (now now2 : Int) (resp resp2 : JSVal),
      truthy (getField st.airlines.timestamp "default") = false →
      (getAirlines parse2 (getAirlines parse st now resp).cache now2
        resp2).networkIssued = true) ∧
    (∀ (st : ServiceCache) (resp : JSVal),
      getLowestPrices st resp = ⟨resp, st, true⟩) ∧
    (∀ (st : ServiceCache) (resp : JSVal),
      getFlightDetails st resp = ⟨resp, st, true⟩) := by
  refine ⟨⟨rfl, rfl, rfl, rfl⟩, ?_, ?_, ?_, ?_, ?_, fun st resp => rfl,
    fun st resp => rfl⟩
  · intro parse st now date resp v t hd htv ht ht0 hfresh
    have hc := checkCache_hit st.airports ("airports_" ++ date) now v t
      hd htv ht ht0 hfresh
    constructor <;> simp [getTaiwanAirports, hc, hd]
  · intro parse st now code dateOpt key resp v t hkey hd htv ht ht0 hfresh
    subst hkey
    have hc := checkCache_hit st.destinations _ now v t hd htv ht ht0 hfresh
    constructor <;> simp [getDestinations, hc, hd]
  · intro parse st now paramsKey resp v t hd htv ht ht0 hfresh
    have hc := checkCache_hit st.flights paramsKey now v t hd htv ht ht0 hfresh
    constructor <;> simp [searchFlights, hc, hd]
  · intro parse st now resp h
    exact (getAirlines_always_network parse st now resp h).1
  · intro parse parse2 st now now2 resp resp2 h
    have h1 := (getAirlines_always_network parse st now resp h).2
    exact (getAirlines_always_network parse2 _ now2 resp2 (by rw [h1]; rfl)).1

/-- C6 witness: a `getTaiwanAirports` call at time 200 whose key was stored
at time 100 (inside the 1-hour TTL) returns the cached array with no
network request. -/
theorem flightService_cache_policy_witness :
    (getTaiwanAirports (fun _ => none)
      ⟨⟨.obj [("airports_2025-04-07", .arr [.str "TSA"])],
        .obj [("airports_2025-04-07", .num 100)], 60 * 60 * 1000⟩,
       initialCache.destinations, initialCache.airlines, initialCache.flights⟩
      200 "2025-04-07" .null).result = .arr [.str "TSA"] ∧
    (getTaiwanAirports (fun _ => none)
      ⟨⟨.obj [("airports_2025-04-07", .arr [.str "TSA"])],
        .obj [("airports_2025-04-07", .num 100)], 60 * 60 * 1000⟩,
       initialCache.destinations, initialCache.airlines, initialCache.flights⟩
      200 "2025-04-07" .null).networkIssued = false :=
  flightService_cache_policy.2.1 (fun _ => none)
    ⟨⟨.obj [("airports_2025-04-07", .arr [.str "TSA"])],
      .obj [("airports_2025-04-07", .num 100)], 60 * 60 * 1000⟩,
     initialCache.destinations, initialCache.airlines, initialCache.flights⟩
    200 "2025-04-07" .null (.arr [.str "TSA"]) 100
    (by rfl) (by rfl) (by rfl) (by norm_num) (by norm_num)

/-- C10 counterexample: a flight whose nested `price.available_seats` is a
truthy 5 but whose top-level `available_seats` is 0 displays 5, not the
sold-out label the claim requires for every flight with top-level 0. -/
theorem availableSeats_counterexample :
    availableSeats (.obj [("price", .obj [("available_seats", .num 5)]),
      ("available_seats", .num 0)]) 0 = .num 5 ∧
    availableSeats (.obj [("price", .obj [("available_seats", .num 5)]),
      ("available_seats", .num 0)]) 0 ≠ .str "客滿" :=
  ⟨rfl, fun h => JSVal.noConfusion
    ((rfl : availableSeats (.obj [("price", .obj [("available_seats", .num 5)]),
      ("available_seats", .num 0)]) 0 = .num 5).symm.trans h)⟩

/-- C10 (amended): a flight whose top-level `available_seats` is 0 displays
`客滿` provided its nested `price.available_seats` is not truthy; a nested
seat count of 0 with no top-level seat field can never yield `客滿` (the
truthiness guard skips zero, so the random branch runs instead); and a
flight with no seat information displays `Math.floor(rand * 44) + 2`, a
value in `[2, 45]` that differs between draws, so the display is not a
deterministic function of the flight data. -/
theorem availableSeats_display :
    (∀ (flight : JSVal) (rand : ℚ),
      truthy (getField (getField flight "price") "available_seats") = false →
      getField flight "available_seats" = .num 0 →
      availableSeats flight rand = .str "客滿") ∧
    (∀ (flight : JSVal) (rand : ℚ),
      getField (getField flight "price") "available_seats" = .num 0 →
      getField flight "available_seats" = .undefined →
      availableSeats flight rand = .num (⌊rand * 44⌋ + 2) ∧
      availableSeats flight rand ≠ .str "客滿") ∧
    (∀ (flight : JSVal) (rand : ℚ), 0 ≤ rand → rand < 1 →
      truthy (getField (getField flight "price") "available_seats") = false →
      getField flight "available_seats" = .undefined →
      availableSeats flight rand = .num (⌊rand * 44⌋ + 2) ∧
      2 ≤ ⌊rand * 44⌋ + 2 ∧ ⌊rand * 44⌋ + 2 ≤ 45) ∧
    (availableSeats (.obj []) 0 = .num 2 ∧
     availableSeats (.obj []) (1/2) = .num 24 ∧
     availableSeats (.obj []) 0 ≠ availableSeats (.obj []) (1/2)) := by
  have e1 : availableSeats (.obj []) 0 = .num 2 := by
    simp [availableSeats, getField, truthy, isNumZero]
  have e2 : availableSeats (.obj []) (1/2) = .num 24 := by
    simp [availableSeats, getField, truthy, isNumZero]
    norm_num
  refine ⟨?_, ?_, ?_, e1, e2, ?_⟩
  · intro flight rand h1 h2
    simp [availableSeats, h1, h2, isNumZero]
  · intro flight rand h1 h2
    have e : availableSeats flight rand = .num (⌊rand * 44⌋ + 2) := by
      simp [availableSeats, h1, h2, isNumZero, truthy]
    exact ⟨e, fun h => JSVal.noConfusion (e.symm.trans h)⟩
  · intro flight rand hr0 hr1 h1 h2
    have e : availableSeats flight rand = .num (⌊rand * 44⌋ + 2) := by
      have zU : isNumZero JSVal.undefined = false := rfl
      have tU : truthy JSVal.undefined = false := rfl
      simp [availableSeats, h1, h2, zU, tU]
    have hf0 : (0 : Int) ≤ ⌊rand * 44⌋ := Int.floor_nonneg.mpr (by positivity)
    have hf1 : ⌊rand * 44⌋ < 44 := by
      apply Int.floor_lt.mpr
      push_cast
      nlinarith
    exact ⟨e, by omega, by omega⟩
  · intro h
    rw [e1, e2] at h
    have h2 := JSVal.num.inj h
    norm_num at h2

/-- C10 witness: a flight with top-level `available_seats` 0 and no nested
seat count displays the sold-out label, and a flight with no seat data at
draw 0 displays 2, within `[2, 45]`. -/
theorem availableSeats_display_witness :
    availableSeats (.obj [("available_seats", .num 0)]) 0 = .str "客滿" ∧
    (availableSeats (.obj []) 0 = .num (⌊(0 : ℚ) * 44⌋ + 2) ∧
     2 ≤ ⌊(0 : ℚ) * 44⌋ + 2 ∧ ⌊(0 : ℚ) * 44⌋ + 2 ≤ 45) :=
  ⟨availableSeats_display.1 (.obj [("available_seats", .num 0)]) 0
      (by rfl) (by rfl),
   availableSeats_display.2.2.1 (.obj []) 0 (by norm_num) (by norm_num)
      (by rfl) (by rfl)⟩
